import Mathlib

/-!
Verification development for the raylib-cpp scene/physics demo.

The scene-manager layer (`src/src/scene_manager.cpp` and the divergent
revision in `src/unnamed/part_005`) is embedded as a state machine over a
list of registered scenes plus the current index.  Lifecycle calls are
recorded as events; a scene is represented by the only behaviour of its
lifecycle callbacks that the manager can observe, namely whether
`cleanup()` / `initialize()` throw.  Registered scenes are never null
(`registerScene` filters null pointers before insertion), so the
`scenes[i]` null checks of the C++ sources always pass and are embedded
as passing.

The ECS layer (`src/include/project/ecs_systems.hpp`,
`src/src/bullet_physics_scene.cpp`) is embedded over `ℝ`-valued vectors
and quaternions; draw and world operations are recorded as events.
-/

namespace Project

/-- One registered scene, as observable by the manager: whether its
`cleanup()` / `initialize()` callbacks throw when invoked. -/
structure Scene where
  cleanupThrows : Bool
  initThrows : Bool
deriving DecidableEq

/-- A lifecycle call dispatched by the manager to the scene at a given
index of its collection. -/
inductive LifecycleEvent where
  | cleanupCall (i : Nat)
  | initCall (i : Nat)
  | updateCall (i : Nat)
  | drawCall (i : Nat)
deriving DecidableEq

/-- `SceneManager`: the ordered scene collection and the current index
(`currentSceneIndex{0}` in `scene_manager.hpp`). -/
structure SceneManager where
  scenes : List Scene
  currentSceneIndex : Nat
deriving DecidableEq

/-- `SceneManager::activateScene` from `src/src/scene_manager.cpp` (the
revision without the same-index guard and without try/catch).  Returns
the post state, the lifecycle calls made, and whether an exception
propagated out of the call.  A throwing `cleanup()` propagates before
the index is assigned; a throwing `initialize()` propagates after. -/
def SceneManager.activateScene (m : SceneManager) (index : Nat) :
    SceneManager × List LifecycleEvent × Bool :=
  if m.scenes.length ≤ index then (m, [], false)
  else if hcur : m.currentSceneIndex < m.scenes.length then
    if (m.scenes.get ⟨m.currentSceneIndex, hcur⟩).cleanupThrows then
      (m, [LifecycleEvent.cleanupCall m.currentSceneIndex], true)
    else
      ({ m with currentSceneIndex := index },
        [LifecycleEvent.cleanupCall m.currentSceneIndex, LifecycleEvent.initCall index],
        (m.scenes.getD index ⟨false, false⟩).initThrows)
  else
    ({ m with currentSceneIndex := index },
      [LifecycleEvent.initCall index], (m.scenes.getD index ⟨false, false⟩).initThrows)

/-- `SceneManager::activateScene` from `src/unnamed/part_005` (the
revision that skips `cleanup()` when the target equals the current index
and wraps both lifecycle calls in `try { ... } catch (...) {}`, so no
exception ever propagates). -/
def SceneManager.activateSceneGuarded (m : SceneManager) (index : Nat) :
    SceneManager × List LifecycleEvent × Bool :=
  if m.scenes.length ≤ index then (m, [], false)
  else
    ({ m with currentSceneIndex := index },
      (if m.currentSceneIndex < m.scenes.length ∧ m.currentSceneIndex ≠ index then
        [LifecycleEvent.cleanupCall m.currentSceneIndex]
      else []) ++ [LifecycleEvent.initCall index], false)

/-- `SceneManager::registerScene`: a null pointer (`none`) is ignored;
otherwise the scene is appended and, if it is the first one, activated. -/
def SceneManager.registerScene (m : SceneManager) (scene : Option Scene) :
    SceneManager × List LifecycleEvent × Bool :=
  match scene with
  | none => (m, [], false)
  | some s =>
    let m1 : SceneManager := { m with scenes := m.scenes ++ [s] }
    if m1.scenes.length = 1 then m1.activateScene 0 else (m1, [], false)

/-- `SceneManager::switchToScene`: out-of-bounds indices are silently
ignored. -/
def SceneManager.switchToScene (m : SceneManager) (index : Nat) :
    SceneManager × List LifecycleEvent × Bool :=
  if m.scenes.length ≤ index then (m, [], false)
  else m.activateScene index

/-- `SceneManager::switchToNextScene`: no-op on an empty collection,
else activates `(currentSceneIndex + 1) % scenes.size()`. -/
def SceneManager.switchToNextScene (m : SceneManager) :
    SceneManager × List LifecycleEvent × Bool :=
  if m.scenes.length = 0 then (m, [], false)
  else m.activateScene ((m.currentSceneIndex + 1) % m.scenes.length)

/-- `SceneManager::switchToPreviousScene`: no-op on an empty collection,
else activates `currentSceneIndex == 0 ? scenes.size() - 1
: currentSceneIndex - 1`. -/
def SceneManager.switchToPreviousScene (m : SceneManager) :
    SceneManager × List LifecycleEvent × Bool :=
  if m.scenes.length = 0 then (m, [], false)
  else m.activateScene
    (if m.currentSceneIndex = 0 then m.scenes.length - 1 else m.currentSceneIndex - 1)

/-- `SceneManager::getCurrentSceneIndex`. -/
def SceneManager.getCurrentSceneIndex (m : SceneManager) : Nat :=
  m.currentSceneIndex

/-- `SceneManager::getSceneCount`. -/
def SceneManager.getSceneCount (m : SceneManager) : Nat :=
  m.scenes.length

/-- `SceneManager::getCurrentScene`: returns the pointer to the scene at
the current index (modelled by that index), or null (`none`) when the
index is not within the collection. -/
def SceneManager.getCurrentScene (m : SceneManager) : Option Nat :=
  if m.scenes.length ≤ m.currentSceneIndex then none else some m.currentSceneIndex

/-- `SceneManager::update`: delegates to the current scene, no-op when
`getCurrentScene()` is null. -/
def SceneManager.update (m : SceneManager) : List LifecycleEvent :=
  match m.getCurrentScene with
  | none => []
  | some i => [LifecycleEvent.updateCall i]

/-- `SceneManager::draw`: delegates to the current scene, no-op when
`getCurrentScene()` is null. -/
def SceneManager.draw (m : SceneManager) : List LifecycleEvent :=
  match m.getCurrentScene with
  | none => []
  | some i => [LifecycleEvent.drawCall i]

/-- A freshly constructed manager: empty collection,
`currentSceneIndex` zero-initialized. -/
def SceneManager.initial : SceneManager :=
  ⟨[], 0⟩

/-- One public mutating operation of the manager. -/
inductive SceneManager.Step : SceneManager → SceneManager → Prop where
  | register (m : SceneManager) (s : Option Scene) : Step m (m.registerScene s).1
  | switchTo (m : SceneManager) (i : Nat) : Step m (m.switchToScene i).1
  | next (m : SceneManager) : Step m m.switchToNextScene.1
  | prev (m : SceneManager) : Step m m.switchToPreviousScene.1

/-- Manager states reachable from a fresh manager through its public
interface. -/
inductive SceneManager.Reachable : SceneManager → Prop where
  | init : Reachable SceneManager.initial
  | step {m m1 : SceneManager} : Reachable m → SceneManager.Step m m1 → Reachable m1

/-!
ECS data model.  `ecs_components.hpp` itself is not under `src/`; the
component records below are reconstructed from their uses in
`ecs_systems.hpp` / `bullet_physics_scene.cpp` and from §3 of the spec.
Scalars are real numbers standing for the C++ floats.
-/

/-- raylib `Vector3`. -/
structure Vector3 where
  x : ℝ
  y : ℝ
  z : ℝ

/-- raylib `Quaternion`, component order (x, y, z, w). -/
structure Quaternion where
  x : ℝ
  y : ℝ
  z : ℝ
  w : ℝ

/-- Bullet `btQuaternion` as read through its accessors; the engine's
component convention is (w, x, y, z), so the `w` component comes
first. -/
structure BtQuaternion where
  w : ℝ
  x : ℝ
  y : ℝ
  z : ℝ

/-- Bullet `btTransform`: an origin and a rotation. -/
structure BtTransform where
  origin : Vector3
  rot : BtQuaternion

/-- The Bullet identity transform placed at `position`
(`setIdentity()` followed by `setOrigin(...)`); the identity rotation
has w = 1 and zero vector part. -/
def btTransformAt (position : Vector3) : BtTransform :=
  ⟨position, ⟨1, 0, 0, 0⟩⟩

/-- `btDefaultMotionState`: the physics engine's cached snapshot of a
body's last-stepped world transform (`getWorldTransform`). -/
structure MotionState where
  worldTransform : BtTransform

/-- `btRigidBody`: `getMotionState()` may be null; `getWorldTransform()`
is the direct body query. -/
structure RigidBody where
  motionState : Option MotionState
  worldTransform : BtTransform

/-- A Bullet collision shape (`btBoxShape` / `btCapsuleShape`). -/
inductive CollisionShape where
  | box (halfExtents : Vector3)
  | capsule (radius height : ℝ)

/-- A raylib color as used by the scenes: the named palette constants
plus `ColorFromHSV`. -/
inductive Color where
  | darkgreen
  | white
  | orange
  | magenta
  | red
  | darkgray
  | yellow
  | fromHSV (hue saturation value : ℝ)

/-- raylib `Model` handle: an opaque identity, its `IsModelValid`
status, and its `GetModelBoundingBox` extent. -/
structure Model where
  id : Nat
  valid : Bool
  bboxMin : Vector3
  bboxMax : Vector3

/-- `Transform` component. -/
structure Transform where
  position : Vector3
  rot : Quaternion
  scale : Vector3

/-- `PhysicsBody` component: the rigid-body pointer may be null. -/
structure PhysicsBody where
  rigidBody : Option RigidBody
  collisionShape : Option CollisionShape
  mass : ℝ
  isStatic : Bool

/-- `Renderable` component. -/
structure Renderable where
  model : Model
  color : Color
  hasModel : Bool

/-- One entity of the `entt` registry, with its optional components;
`ground` is the zero-data `Ground` tag and `name` the `Name` tag. -/
structure Entity where
  transform : Option Transform
  physicsBody : Option PhysicsBody
  renderable : Option Renderable
  ground : Bool
  name : Option String

/-- `btDiscreteDynamicsWorld` (constructed from dispatcher, broadphase,
solver and collision configuration; only its gravity setting is visible
to this code). -/
structure DynamicsWorld where
  gravity : Vector3

/-- The world-transform read of `PhysicsSystem::update`: prefer the
motion-state snapshot (`getMotionState()->getWorldTransform(...)`) and
fall back to the direct body query (`getWorldTransform()`). -/
def readWorldTransform (rb : RigidBody) : BtTransform :=
  match rb.motionState with
  | some ms => ms.worldTransform
  | none => rb.worldTransform

/-- The quaternion copy of `PhysicsSystem::update`: the Bullet
components are read through `.x() .y() .z() .w()` and stored into the
raylib `Quaternion{x, y, z, w}` — translating Bullet's (w, x, y, z)
convention into raylib's (x, y, z, w). -/
def btQuatToRaylib (q : BtQuaternion) : Quaternion :=
  ⟨q.x, q.y, q.z, q.w⟩

/-- Loop body of the sync loop in `PhysicsSystem::update`
(`src/include/project/ecs_systems.hpp`): entities holding both a
Transform and a PhysicsBody with a non-null rigid body get position and
rotation copied from the engine's world transform; all others are left
unchanged. -/
def syncEntity (e : Entity) : Entity :=
  match e.transform, e.physicsBody with
  | some t, some pb =>
    match pb.rigidBody with
    | none => e
    | some rb =>
      { e with transform := some { t with
          position := (readWorldTransform rb).origin,
          rot := btQuatToRaylib (readWorldTransform rb).rot } }
  | _, _ => e

/-- `PhysicsSystem::update`: early-out on a null world; otherwise steps
the simulation (`stepSimulation(deltaTime, 10)`, delegated to the
external engine) and syncs every Transform+PhysicsBody entity. -/
def PhysicsSystem.update (dynamicsWorld : Option DynamicsWorld) (deltaTime : ℝ)
    (registry : List Entity) : List Entity :=
  match dynamicsWorld with
  | none => registry
  | some _ => registry.map syncEntity

/-- A rendering-backend call issued by the draw code. -/
inductive DrawEvent where
  | drawModelEx (model : Nat) (position : Vector3) (rotationAxis : Vector3)
      (rotationAngle : ℝ) (scale : Vector3) (color : Color)
  | drawModel (model : Nat) (position : Vector3) (scale : ℝ) (color : Color)
  | drawBoundingBox (bmin bmax : Vector3) (color : Color)
  | drawSphere (center : Vector3) (radius : ℝ) (color : Color)
  | drawCube (position : Vector3) (width height length : ℝ) (color : Color)
  | drawCubeWires (position : Vector3) (width height length : ℝ) (color : Color)
  | drawCubeWiresV (position : Vector3) (size : Vector3) (color : Color)

/-- raymath `Vector3Normalize`: divide by the length, guarding a zero
length by 1. -/
noncomputable def vector3Normalize (v : Vector3) : Vector3 :=
  ⟨v.x * (1 / (if Real.sqrt (v.x * v.x + v.y * v.y + v.z * v.z) = 0 then 1
      else Real.sqrt (v.x * v.x + v.y * v.y + v.z * v.z))),
   v.y * (1 / (if Real.sqrt (v.x * v.x + v.y * v.y + v.z * v.z) = 0 then 1
      else Real.sqrt (v.x * v.x + v.y * v.y + v.z * v.z))),
   v.z * (1 / (if Real.sqrt (v.x * v.x + v.y * v.y + v.z * v.z) = 0 then 1
      else Real.sqrt (v.x * v.x + v.y * v.y + v.z * v.z)))⟩

/-- `std::clamp(v, lo, hi)`. -/
noncomputable def stdClamp (v lo hi : ℝ) : ℝ :=
  if v < lo then lo else if hi < v then hi else v

/-- Quaternion-to-axis-angle conversion of `RenderSystem::draw`: default
axis (0, 1, 0) with angle 0 unless the vector-part magnitude exceeds the
0.0001 threshold, in which case the axis is the normalized vector part
and the angle is `2 * acos(clamp(w, -1, 1))`. -/
noncomputable def quatToAxisAngle (q : Quaternion) : Vector3 × ℝ :=
  if Real.sqrt (q.x * q.x + q.y * q.y + q.z * q.z) > 1 / 10000 then
    (vector3Normalize ⟨q.x, q.y, q.z⟩, 2 * Real.arccos (stdClamp q.w (-1) 1))
  else
    (⟨0, 1, 0⟩, 0)

/-- Loop body of `RenderSystem::draw` for one viewed entity: skip when
`hasModel` is false; `DrawModelEx` with the axis-angle rotation when
every scale component is strictly positive, else the `DrawModel`
unit-scale fallback. -/
noncomputable def renderEntityDraw (t : Transform) (r : Renderable) : List DrawEvent :=
  if r.hasModel = false then []
  else if t.scale.x > 0 ∧ t.scale.y > 0 ∧ t.scale.z > 0 then
    [DrawEvent.drawModelEx r.model.id t.position (quatToAxisAngle t.rot).1
      (quatToAxisAngle t.rot).2 t.scale r.color]
  else
    [DrawEvent.drawModel r.model.id t.position 1 r.color]

/-- Contribution of one registry entity to the `RenderSystem::draw`
view over `<Transform, Renderable>` (entities lacking either component
are not part of the view). -/
noncomputable def generalViewDraw (e : Entity) : List DrawEvent :=
  match e.transform, e.renderable with
  | some t, some r => renderEntityDraw t r
  | _, _ => []

/-- `RenderSystem::draw`: iterate the `<Transform, Renderable>` view —
with no exclusion of `Ground`-tagged entities. -/
noncomputable def RenderSystem.draw (registry : List Entity) : List DrawEvent :=
  registry.flatMap generalViewDraw

/-- Loop body of `RenderSystem::drawGround` for one viewed entity: skip
when `hasModel` is false, else `DrawModelEx` with the fixed up axis
(0, 1, 0), zero rotation, and the transform's explicit scale. -/
noncomputable def groundEntityDraw (t : Transform) (r : Renderable) : List DrawEvent :=
  if r.hasModel = false then []
  else [DrawEvent.drawModelEx r.model.id t.position ⟨0, 1, 0⟩ 0 t.scale r.color]

/-- Contribution of one registry entity to the `RenderSystem::drawGround`
view over `<Transform, Renderable, Ground>`. -/
noncomputable def groundViewDraw (e : Entity) : List DrawEvent :=
  match e.transform, e.renderable, e.ground with
  | some t, some r, true => groundEntityDraw t r
  | _, _, _ => []

/-- `RenderSystem::drawGround`: iterate the
`<Transform, Renderable, Ground>` view. -/
noncomputable def RenderSystem.drawGround (registry : List Entity) : List DrawEvent :=
  registry.flatMap groundViewDraw

/-- raymath `Vector3Add`. -/
noncomputable def vector3Add (a b : Vector3) : Vector3 :=
  ⟨a.x + b.x, a.y + b.y, a.z + b.z⟩

/-- raymath `Vector3Subtract`. -/
noncomputable def vector3Subtract (a b : Vector3) : Vector3 :=
  ⟨a.x - b.x, a.y - b.y, a.z - b.z⟩

/-- raymath `Vector3Scale`. -/
noncomputable def vector3Scale (v : Vector3) (s : ℝ) : Vector3 :=
  ⟨v.x * s, v.y * s, v.z * s⟩

/-- A dynamics-world operation performed by the physics scene. -/
inductive WorldEvent where
  | addRigidBody

/-- A resource release performed by a scene's `cleanup()`. -/
inductive ResourceEvent where
  | unloadModel (id : Nat)
  | sceneClear
  | removeRigidBody
  | clearRegistry
  | deleteDynamicsWorld
  | deleteConstraintSolver
  | deleteBroadphase
  | deleteDispatcher
  | deleteCollisionConfiguration

/-- `BulletPhysicsScene` state (`bullet_physics_scene.hpp`): the entt
registry, the Bullet world and its four helper objects (each modelled by
whether the owning pointer is non-null), and the one-shot
`isInitialized` flag. -/
structure BulletPhysicsScene where
  registry : List Entity
  dynamicsWorld : Option DynamicsWorld
  dispatcher : Bool
  overlappingPairCache : Bool
  constraintSolver : Bool
  collisionConfiguration : Bool
  isInitialized : Bool

/-- External raylib results consumed by the physics scene: the models
produced by `LoadModelFromMesh` / `LoadModel` and whether the character
asset file exists. -/
structure RaylibEnv where
  groundModel : Model
  characterFileExists : Bool
  characterModel : Model
  boxModel : Nat → Model

/-- `BulletPhysicsScene::createPhysicsEntity`: builds the entity with an
identity-rotation unit-scale Transform at `position`, a rigid body with
a fresh default motion state at that pose, the mass/static flag
(`isStatic` iff mass == 0), an optional Renderable (re-validated with
`IsModelValid`), and the optional Ground tag; the body is added to the
world when the world pointer is non-null (recorded as an
`addRigidBody` event). -/
noncomputable def createPhysicsEntity (dynamicsWorld : Option DynamicsWorld)
    (position : Vector3) (collisionShape : CollisionShape) (mass : ℝ)
    (hasModel : Bool) (model : Model) (color : Color) (isGround : Bool) :
    Entity × List WorldEvent :=
  (⟨some ⟨position, ⟨0, 0, 0, 1⟩, ⟨1, 1, 1⟩⟩,
    some ⟨some ⟨some ⟨btTransformAt position⟩, btTransformAt position⟩,
      some collisionShape, mass, if mass = 0 then true else false⟩,
    if hasModel then some ⟨model, color, model.valid⟩ else none,
    isGround,
    none⟩,
   match dynamicsWorld with
   | some _ => [WorldEvent.addRigidBody]
   | none => [])

/-- Helper: `registry.get<Transform>(entity)` mutation setting the
scale, guarded by `registry.all_of<Transform>` as in the source. -/
noncomputable def setTransformScale (e : Entity) (scale : Vector3) : Entity :=
  match e.transform with
  | some t => { e with transform := some { t with scale := scale } }
  | none => e

/-- Helper: `registry.emplace<Name>(entity, ...)`. -/
noncomputable def setEntityName (e : Entity) (n : String) : Entity :=
  { e with name := some n }

/-- `BulletPhysicsScene::setupPhysicsWorld`: allocates the collision
configuration, dispatcher, broadphase, solver and the world (gravity
(0, -9.8, 0)). -/
noncomputable def BulletPhysicsScene.setupPhysicsWorld (s : BulletPhysicsScene) :
    BulletPhysicsScene :=
  { s with
      collisionConfiguration := true, dispatcher := true,
      overlappingPairCache := true, constraintSolver := true,
      dynamicsWorld := some ⟨⟨0, -(98 / 10), 0⟩⟩ }

/-- The `createPhysicsEntity` call of
`BulletPhysicsScene::createGroundPlane`: a static (mass 0) box of half
extents (20, 0.5, 20) at (0, -0.5, 0), Ground-tagged, colored DARKGREEN,
with the cube-mesh model. -/
noncomputable def groundCreation (env : RaylibEnv)
    (dynamicsWorld : Option DynamicsWorld) : Entity × List WorldEvent :=
  createPhysicsEntity dynamicsWorld ⟨0, -(1 / 2), 0⟩
    (CollisionShape.box ⟨20, 1 / 2, 20⟩) 0
    env.groundModel.valid env.groundModel Color.darkgreen true

/-- `BulletPhysicsScene::createGroundPlane`: creates the ground entity
and then sets its Transform scale to (40, 1, 40). -/
noncomputable def BulletPhysicsScene.createGroundPlane (env : RaylibEnv)
    (s : BulletPhysicsScene) : BulletPhysicsScene × List WorldEvent :=
  ({ s with registry := s.registry ++
      [setTransformScale (groundCreation env s.dynamicsWorld).1 ⟨40, 1, 40⟩] },
   (groundCreation env s.dynamicsWorld).2)

/-- The capsule radius of `BulletPhysicsScene::createCharacter`:
`max(boundingSize.x, boundingSize.z) * 0.5` where `boundingSize` is the
bounding-box extent of the character model. -/
noncomputable def characterCapsuleRadius (env : RaylibEnv) : ℝ :=
  max (vector3Subtract env.characterModel.bboxMax env.characterModel.bboxMin).x
    (vector3Subtract env.characterModel.bboxMax env.characterModel.bboxMin).z * (1 / 2)

/-- The capsule height of `BulletPhysicsScene::createCharacter`:
`max(boundingSize.y - radius * 2, 0.1)`. -/
noncomputable def characterCapsuleHeight (env : RaylibEnv) : ℝ :=
  max ((vector3Subtract env.characterModel.bboxMax env.characterModel.bboxMin).y -
    characterCapsuleRadius env * 2) (1 / 10)

/-- The `createPhysicsEntity` call of
`BulletPhysicsScene::createCharacter`: a static (mass 0) capsule sized
from the model's bounding box, positioned so the bounding-box bottom
sits on the ground top (y = 0 - bboxMin.y), colored WHITE, not ground. -/
noncomputable def characterCreation (env : RaylibEnv)
    (dynamicsWorld : Option DynamicsWorld) : Entity × List WorldEvent :=
  createPhysicsEntity dynamicsWorld
    ⟨0, 0 - env.characterModel.bboxMin.y, 0⟩
    (CollisionShape.capsule (characterCapsuleRadius env) (characterCapsuleHeight env))
    0 env.characterModel.valid env.characterModel Color.white false

/-- `BulletPhysicsScene::createCharacter`: early-out when the asset file
is missing or the loaded model invalid; otherwise the capsule entity is
created, named "character-a", and its Transform scale set to
(1, 1, 1). -/
noncomputable def BulletPhysicsScene.createCharacter (env : RaylibEnv)
    (s : BulletPhysicsScene) : BulletPhysicsScene × List WorldEvent :=
  if env.characterFileExists = false then (s, [])
  else if env.characterModel.valid = false then (s, [])
  else
    ({ s with registry := s.registry ++
        [setTransformScale
          (setEntityName (characterCreation env s.dynamicsWorld).1 "character-a")
          ⟨1, 1, 1⟩] },
     (characterCreation env s.dynamicsWorld).2)

/-- One falling-box creation of `BulletPhysicsScene::createFallingBoxes`
at grid cell (i, j) with running index `boxIndex`: a dynamic box of mass
1 and half extents (0.5, 0.5, 0.5) at
((i - gridSize/2) * 2, 5, (j - gridSize/2) * 2) with an HSV-varied
color. -/
noncomputable def fallingBoxCreation (env : RaylibEnv)
    (dynamicsWorld : Option DynamicsWorld) (i j boxIndex : Nat) :
    Entity × List WorldEvent :=
  createPhysicsEntity dynamicsWorld
    ⟨((i : ℝ) - (3 : ℝ) / 2) * 2, 5, ((j : ℝ) - (3 : ℝ) / 2) * 2⟩
    (CollisionShape.box ⟨1 / 2, 1 / 2, 1 / 2⟩) 1
    (env.boxModel boxIndex).valid (env.boxModel boxIndex)
    (Color.fromHSV ((boxIndex : ℝ) / 10 * 360) (8 / 10) (9 / 10)) false

/-- `BulletPhysicsScene::createFallingBoxes`: a kGridSize x kGridSize
grid (kGridSize = int(sqrt(10)) = 3) of falling dynamic boxes; the
running `boxIndex < kBoxCount` guard never trips since at most 9 boxes
are created.  This procedure exists in the source but is never invoked
by `initialize()`. -/
noncomputable def BulletPhysicsScene.createFallingBoxes (env : RaylibEnv)
    (s : BulletPhysicsScene) : BulletPhysicsScene × List WorldEvent :=
  ({ s with registry := s.registry ++
      ((List.range (Nat.sqrt 10)).flatMap fun i =>
        (List.range (Nat.sqrt 10)).filterMap fun j =>
          if i * Nat.sqrt 10 + j < 10 then
            some (fallingBoxCreation env s.dynamicsWorld i j (i * Nat.sqrt 10 + j)).1
          else none) },
   (List.range (Nat.sqrt 10)).flatMap fun i =>
     (List.range (Nat.sqrt 10)).flatMap fun j =>
       if i * Nat.sqrt 10 + j < 10 then
         (fallingBoxCreation env s.dynamicsWorld i j (i * Nat.sqrt 10 + j)).2
       else [])

/-- `BulletPhysicsScene::initialize` (`src/src/bullet_physics_scene.cpp`
lines 15-25): no-op when already initialized; otherwise
`setupPhysicsWorld()`, `createGroundPlane()`, `createCharacter()` — and
nothing else (`createFallingBoxes()` is not called) — then the
`isInitialized` flag is set. -/
noncomputable def BulletPhysicsScene.initializeScene (env : RaylibEnv)
    (s : BulletPhysicsScene) : BulletPhysicsScene × List WorldEvent :=
  if s.isInitialized = true then (s, [])
  else
    ({ ((s.setupPhysicsWorld.createGroundPlane env).1.createCharacter env).1 with
        isInitialized := true },
     (s.setupPhysicsWorld.createGroundPlane env).2 ++
       ((s.setupPhysicsWorld.createGroundPlane env).1.createCharacter env).2)

/-- `BulletPhysicsScene::cleanupPhysicsWorld`: deletes (and nulls) the
world, solver, broadphase, dispatcher and collision configuration, each
guarded by its own null check. -/
noncomputable def BulletPhysicsScene.cleanupPhysicsWorld (s : BulletPhysicsScene) :
    BulletPhysicsScene × List ResourceEvent :=
  ({ s with
        dynamicsWorld := none, constraintSolver := false,
        overlappingPairCache := false, dispatcher := false,
        collisionConfiguration := false },
   (if s.dynamicsWorld.isSome then [ResourceEvent.deleteDynamicsWorld] else []) ++
   (if s.constraintSolver then [ResourceEvent.deleteConstraintSolver] else []) ++
   (if s.overlappingPairCache then [ResourceEvent.deleteBroadphase] else []) ++
   (if s.dispatcher then [ResourceEvent.deleteDispatcher] else []) ++
   (if s.collisionConfiguration then [ResourceEvent.deleteCollisionConfiguration] else []))

/-- `BulletPhysicsScene::cleanup`: no-op when not initialized; otherwise
clears `isInitialized` first (re-entry guard), removes every non-null
rigid body from the world (when the world is non-null), clears the
registry and tears the world down. -/
noncomputable def BulletPhysicsScene.cleanup (s : BulletPhysicsScene) :
    BulletPhysicsScene × List ResourceEvent :=
  if s.isInitialized = false then (s, [])
  else
    (({ s with isInitialized := false, registry := [] }).cleanupPhysicsWorld.1,
     (s.registry.flatMap fun e =>
        match e.physicsBody with
        | some pb =>
          if pb.rigidBody.isSome && s.dynamicsWorld.isSome then
            [ResourceEvent.removeRigidBody]
          else []
        | none => []) ++
       [ResourceEvent.clearRegistry] ++
       ({ s with isInitialized := false, registry := [] }).cleanupPhysicsWorld.2)

/-- Per-entity body of the character/debug pass of
`BulletPhysicsScene::draw` (view `<Transform, Renderable, Name>`): a
bounding box and a fixed-axis `DrawModelEx` when the model is valid
(with unit-scale fallback on a non-positive scale), else an ORANGE
warning sphere. -/
noncomputable def characterEntityDraw (t : Transform) (r : Renderable) : List DrawEvent :=
  if r.hasModel then
    [DrawEvent.drawBoundingBox
      (vector3Subtract
        (vector3Add t.position
          (vector3Add r.model.bboxMin
            (vector3Scale (vector3Subtract r.model.bboxMax r.model.bboxMin) (1 / 2))))
        (vector3Scale (vector3Subtract r.model.bboxMax r.model.bboxMin) (1 / 2)))
      (vector3Add
        (vector3Add t.position
          (vector3Add r.model.bboxMin
            (vector3Scale (vector3Subtract r.model.bboxMax r.model.bboxMin) (1 / 2))))
        (vector3Scale (vector3Subtract r.model.bboxMax r.model.bboxMin) (1 / 2)))
      Color.yellow,
     DrawEvent.drawModelEx r.model.id t.position ⟨0, 1, 0⟩ 0
      (if t.scale.x > 0 ∧ t.scale.y > 0 ∧ t.scale.z > 0 then t.scale else ⟨1, 1, 1⟩)
      Color.white]
  else
    [DrawEvent.drawSphere t.position (1 / 2) Color.orange]

/-- Contribution of one registry entity to the character/debug pass. -/
noncomputable def characterViewDraw (e : Entity) : List DrawEvent :=
  match e.transform, e.renderable, e.name with
  | some t, some r, some _ => characterEntityDraw t r
  | _, _, _ => []

/-- Whether an entity belongs to the `<Transform, Renderable, Name>`
character view (sets `hasCharacters` in the source). -/
def isCharacterViewEntity (e : Entity) : Bool :=
  e.transform.isSome && e.renderable.isSome && e.name.isSome

/-- The no-characters fallback of `BulletPhysicsScene::draw`: a MAGENTA
test cube with RED wires at the origin when the character view matched
nothing. -/
noncomputable def noCharacterFallback (registry : List Entity) : List DrawEvent :=
  if registry.any isCharacterViewEntity then []
  else
    [DrawEvent.drawCube ⟨0, 0, 0⟩ 1 1 1 Color.magenta,
     DrawEvent.drawCubeWires ⟨0, 0, 0⟩ 1 1 1 Color.red]

/-- The wireframe pass of `BulletPhysicsScene::draw` (view
`<Transform, PhysicsBody>` excluding `Ground`, skipping `Name`-tagged
entities): a DARKGRAY wire cube of edge 1 at the entity position. -/
noncomputable def wireframeViewDraw (e : Entity) : List DrawEvent :=
  match e.transform, e.physicsBody, e.ground, e.name with
  | some t, some _, false, none => [DrawEvent.drawCubeWiresV t.position ⟨1, 1, 1⟩ Color.darkgray]
  | _, _, _, _ => []

/-- `BulletPhysicsScene::draw` (`src/src/bullet_physics_scene.cpp` lines
348-433): no-op when not initialized; otherwise, in fixed order, the
ground pass (`RenderSystem::drawGround`), the general pass
(`RenderSystem::draw`), the character/debug pass, the no-characters
fallback, and the wireframe pass. -/
noncomputable def BulletPhysicsScene.draw (s : BulletPhysicsScene) : List DrawEvent :=
  if s.isInitialized = false then []
  else
    RenderSystem.drawGround s.registry ++ RenderSystem.draw s.registry ++
      s.registry.flatMap characterViewDraw ++ noCharacterFallback s.registry ++
      s.registry.flatMap wireframeViewDraw

/-- One object of `GeometricScene` (`geometric_scene.hpp`). -/
structure GeometricObject where
  position : Vector3
  objRot : Vector3
  size : Vector3
  color : Color
  rotationSpeed : ℝ

/-- `GeometricScene` state (`geometric_scene.hpp`). -/
structure GeometricScene where
  objects : List GeometricObject
  cubeModel : Model
  hasCubeModel : Bool
  time : ℝ
  isInitialized : Bool

/-- `GeometricScene::cleanup` (`src/unnamed/part_006` lines 30-39):
when initialized, unload the cube model if present, clear the object
list and drop the flag; otherwise do nothing. -/
def GeometricScene.cleanup (s : GeometricScene) : GeometricScene × List ResourceEvent :=
  if s.isInitialized then
    ({ s with hasCubeModel := false, objects := [], isInitialized := false },
     if s.hasCubeModel then [ResourceEvent.unloadModel s.cubeModel.id] else [])
  else (s, [])

/-- `TreeScene` state (`tree_scene.hpp`).  The owned `Scene` class is
not under `src/`; per §3 of the spec its `clear()` releases the scene's
objects, modelled as emptying the object list with one `sceneClear`
release event. -/
structure TreeScene where
  sceneObjects : List String
  modelPath : String
  isInitialized : Bool

/-- `TreeScene::cleanup` (`src/src/tree_scene.cpp` lines 42-47): when
initialized, `scene.clear()` and drop the flag; otherwise do nothing. -/
def TreeScene.cleanup (s : TreeScene) : TreeScene × List ResourceEvent :=
  if s.isInitialized then
    ({ s with sceneObjects := [], isInitialized := false }, [ResourceEvent.sceneClear])
  else (s, [])

/-- A fresh `BulletPhysicsScene` as default-constructed: empty
registry, null engine pointers, not initialized. -/
def freshBulletPhysicsScene : BulletPhysicsScene :=
  ⟨[], none, false, false, false, false, false⟩

/-- Sample motion state whose cached world transform is at (1, 2, 3)
with Bullet rotation (w, x, y, z) = (4, 5, 6, 7). -/
noncomputable def motionStateC4 : MotionState :=
  ⟨⟨⟨1, 2, 3⟩, ⟨4, 5, 6, 7⟩⟩⟩

/-- Sample rigid body carrying `motionStateC4` and a distinct direct
world transform. -/
noncomputable def rigidBodyC4 : RigidBody :=
  ⟨some motionStateC4, ⟨⟨0, 0, 0⟩, ⟨1, 0, 0, 0⟩⟩⟩

/-- Sample `PhysicsBody` component holding `rigidBodyC4`. -/
noncomputable def physicsBodyC4 : PhysicsBody :=
  ⟨some rigidBodyC4, none, 1, false⟩

/-- Sample `Transform` component at the origin. -/
noncomputable def transformC4 : Transform :=
  ⟨⟨0, 0, 0⟩, ⟨0, 0, 0, 1⟩, ⟨1, 1, 1⟩⟩

/-- Sample entity with both a Transform and a PhysicsBody. -/
noncomputable def entityC4 : Entity :=
  ⟨some transformC4, some physicsBodyC4, none, false, none⟩

/-- Sample renderable with a valid model. -/
noncomputable def badScaleRenderable : Renderable :=
  ⟨⟨3, true, ⟨0, 0, 0⟩, ⟨0, 0, 0⟩⟩, Color.white, true⟩

/-- Sample transform whose scale (0, 1, 1) has a non-positive
component. -/
noncomputable def badScaleTransform : Transform :=
  ⟨⟨0, 0, 0⟩, ⟨0, 0, 0, 1⟩, ⟨0, 1, 1⟩⟩

/-- Sample renderable entity with the invalid scale (0, 1, 1). -/
noncomputable def badScaleEntity : Entity :=
  ⟨some badScaleTransform, none, some badScaleRenderable, false, none⟩

/-- Sample Ground-tagged renderable entity with identity rotation and
unit scale. -/
noncomputable def groundOnlyEntity : Entity :=
  ⟨some ⟨⟨0, 0, 0⟩, ⟨0, 0, 0, 1⟩, ⟨1, 1, 1⟩⟩, none,
    some ⟨⟨0, true, ⟨0, 0, 0⟩, ⟨0, 0, 0⟩⟩, Color.darkgreen, true⟩, true, none⟩

/-- Sample initialized physics scene whose registry holds only the
Ground-tagged entity. -/
noncomputable def groundOnlyScene : BulletPhysicsScene :=
  ⟨[groundOnlyEntity], some ⟨⟨0, -(98 / 10), 0⟩⟩, true, true, true, true, true⟩

theorem activateScene_scenes (m : SceneManager) (i : Nat) :
    ((m.activateScene i).1).scenes = m.scenes := by
  unfold SceneManager.activateScene
  split
  · rfl
  · split
    · split <;> rfl
    · rfl

theorem activateScene_state (m : SceneManager) (i : Nat) :
    (m.activateScene i).1 = m ∨
      ((m.activateScene i).1 = { m with currentSceneIndex := i } ∧ i < m.scenes.length) := by
  unfold SceneManager.activateScene
  split
  · exact Or.inl rfl
  · rename_i hle
    split
    · split
      · exact Or.inl rfl
      · exact Or.inr ⟨rfl, Nat.lt_of_not_le hle⟩
    · exact Or.inr ⟨rfl, Nat.lt_of_not_le hle⟩

theorem activateScene_noThrow (m : SceneManager) (i : Nat)
    (hnt : ∀ s ∈ m.scenes, s.cleanupThrows = false) (hi : i < m.scenes.length) :
    (m.activateScene i).1 = { m with currentSceneIndex := i } := by
  unfold SceneManager.activateScene
  rw [if_neg (Nat.not_le.mpr hi)]
  split
  · rename_i hcur
    have hmem : m.scenes.get ⟨m.currentSceneIndex, hcur⟩ ∈ m.scenes := List.get_mem _ _ _
    rw [if_neg (by simpa using hnt _ hmem)]
  · rfl

/-- Claim C1 (amended).  For an in-bounds target index B and
non-throwing scenes, a transition updates the current index to B and
performs exactly the following lifecycle calls, in order, and no others.
In the guarded revision (`src/unnamed/part_005`): one `cleanup()` of the
current scene iff the current index is in bounds and differs from B,
then one `initialize()` of scene B — so even switching to the
already-current scene invokes its `initialize()` once.  In the plain
revision (`src/src/scene_manager.cpp`): one `cleanup()` of the current
scene iff the current index is in bounds — even when it equals B — then
one `initialize()` of scene B. -/
theorem c1_transition_protocol (m : SceneManager) (B : Nat)
    (hB : B < m.scenes.length)
    (hnt : ∀ s ∈ m.scenes, s.cleanupThrows = false) :
    ((m.activateSceneGuarded B).2.1 =
        (if m.currentSceneIndex < m.scenes.length ∧ m.currentSceneIndex ≠ B then
          [LifecycleEvent.cleanupCall m.currentSceneIndex]
        else []) ++ [LifecycleEvent.initCall B]
      ∧ (m.activateSceneGuarded B).1.currentSceneIndex = B)
    ∧ ((m.activateScene B).2.1 =
        (if m.currentSceneIndex < m.scenes.length then
          [LifecycleEvent.cleanupCall m.currentSceneIndex]
        else []) ++ [LifecycleEvent.initCall B]
      ∧ (m.activateScene B).1.currentSceneIndex = B) := by
  refine ⟨⟨?_, ?_⟩, ?_, ?_⟩
  · unfold SceneManager.activateSceneGuarded
    rw [if_neg (Nat.not_le.mpr hB)]
  · unfold SceneManager.activateSceneGuarded
    rw [if_neg (Nat.not_le.mpr hB)]
  · unfold SceneManager.activateScene
    rw [if_neg (Nat.not_le.mpr hB)]
    split
    · rename_i hcur
      have hmem : m.scenes.get ⟨m.currentSceneIndex, hcur⟩ ∈ m.scenes := List.get_mem _ _ _
      rw [if_neg (by simpa using hnt _ hmem)]
      simp
    · simp
  · rw [activateScene_noThrow m B hnt hB]

/-- Claim C1, counterexample to the claim as stated.  The claim says
switching to the already-current scene invokes neither `cleanup()` nor
`initialize()`.  On a manager holding one non-throwing scene with
current index 0, activating index 0 invokes `cleanup()` and
`initialize()` on that scene in the plain revision, and still invokes
`initialize()` in the guarded revision. -/
theorem c1_counterexample :
    (SceneManager.activateScene ⟨[⟨false, false⟩], 0⟩ 0).2.1 =
      [LifecycleEvent.cleanupCall 0, LifecycleEvent.initCall 0]
    ∧ (SceneManager.activateSceneGuarded ⟨[⟨false, false⟩], 0⟩ 0).2.1 =
      [LifecycleEvent.initCall 0] := by
  decide

/-- Claim C1, witness: the amended transition protocol evaluated on a
concrete two-scene manager switching from index 0 to index 1. -/
theorem c1_witness :
    ((1 : Nat) < (⟨[⟨false, false⟩, ⟨false, false⟩], 0⟩ : SceneManager).scenes.length
      ∧ ∀ s ∈ (⟨[⟨false, false⟩, ⟨false, false⟩], 0⟩ : SceneManager).scenes,
          s.cleanupThrows = false)
    ∧ (SceneManager.activateScene ⟨[⟨false, false⟩, ⟨false, false⟩], 0⟩ 1).2.1 =
        [LifecycleEvent.cleanupCall 0, LifecycleEvent.initCall 1] :=
  ⟨⟨by decide, by decide⟩, by
    have h := (c1_transition_protocol ⟨[⟨false, false⟩, ⟨false, false⟩], 0⟩ 1
      (by decide) (by decide)).2.1
    simpa using h⟩

/-- Claim C2 (amended).  For an in-bounds target index B: in the guarded
revision (`src/unnamed/part_005`) an exception raised by the outgoing
scene's `cleanup()` or the target's `initialize()` is swallowed at the
manager boundary and the index is still updated to B.  In the plain
revision (`src/src/scene_manager.cpp`) exceptions are not caught: a
throwing `cleanup()` propagates to the caller and leaves the manager
state unchanged (the index is not updated), and a throwing
`initialize()` propagates with the index already updated. -/
theorem c2_fault_isolation (m : SceneManager) (B : Nat) (hB : B < m.scenes.length) :
    ((m.activateSceneGuarded B).2.2 = false
      ∧ (m.activateSceneGuarded B).1.currentSceneIndex = B)
    ∧ (m.currentSceneIndex < m.scenes.length →
        (m.scenes.getD m.currentSceneIndex ⟨false, false⟩).cleanupThrows = true →
        (m.activateScene B).2.2 = true ∧ (m.activateScene B).1 = m)
    ∧ ((∀ s ∈ m.scenes, s.cleanupThrows = false) →
        (m.scenes.getD B ⟨false, false⟩).initThrows = true →
        (m.activateScene B).2.2 = true ∧ (m.activateScene B).1.currentSceneIndex = B) := by
  refine ⟨⟨?_, ?_⟩, ?_, ?_⟩
  · unfold SceneManager.activateSceneGuarded
    rw [if_neg (Nat.not_le.mpr hB)]
  · unfold SceneManager.activateSceneGuarded
    rw [if_neg (Nat.not_le.mpr hB)]
  · intro hcur hthrow
    unfold SceneManager.activateScene
    rw [if_neg (Nat.not_le.mpr hB), dif_pos hcur]
    rw [List.getD_eq_getElem _ _ hcur] at hthrow
    rw [if_pos (by simpa using hthrow)]
    exact ⟨rfl, rfl⟩
  · intro hnt hthrow
    unfold SceneManager.activateScene
    rw [if_neg (Nat.not_le.mpr hB)]
    split
    · rename_i hcur
      have hmem : m.scenes.get ⟨m.currentSceneIndex, hcur⟩ ∈ m.scenes := List.get_mem _ _ _
      rw [if_neg (by simpa using hnt _ hmem)]
      exact ⟨hthrow, rfl⟩
    · exact ⟨hthrow, rfl⟩

/-- Claim C2, counterexample to the claim as stated.  On a two-scene
manager (plain revision) whose current scene's `cleanup()` throws,
switching to index 1 propagates the exception to the caller and the
current index remains 0 instead of being updated to 1. -/
theorem c2_counterexample :
    (SceneManager.activateScene ⟨[⟨true, false⟩, ⟨false, false⟩], 0⟩ 1).2.2 = true
    ∧ (SceneManager.activateScene ⟨[⟨true, false⟩, ⟨false, false⟩], 0⟩ 1).1.currentSceneIndex
      = 0 := by
  decide

/-- Claim C2, witness: fault isolation of the guarded revision evaluated
on a concrete manager whose current scene's `cleanup()` throws. -/
theorem c2_witness :
    ((1 : Nat) < (⟨[⟨true, false⟩, ⟨false, false⟩], 0⟩ : SceneManager).scenes.length)
    ∧ (SceneManager.activateSceneGuarded ⟨[⟨true, false⟩, ⟨false, false⟩], 0⟩ 1).2.2 = false
    ∧ (SceneManager.activateSceneGuarded
        ⟨[⟨true, false⟩, ⟨false, false⟩], 0⟩ 1).1.currentSceneIndex = 1 :=
  ⟨by decide,
    (c2_fault_isolation ⟨[⟨true, false⟩, ⟨false, false⟩], 0⟩ 1 (by decide)).1⟩

theorem switchToNextScene_state (m : SceneManager)
    (hnt : ∀ s ∈ m.scenes, s.cleanupThrows = false)
    (hc : m.currentSceneIndex < m.scenes.length) :
    m.switchToNextScene.1 =
      { m with currentSceneIndex := (m.currentSceneIndex + 1) % m.scenes.length } := by
  have hN : 0 < m.scenes.length := Nat.lt_of_le_of_lt (Nat.zero_le _) hc
  unfold SceneManager.switchToNextScene
  rw [if_neg (Nat.pos_iff_ne_zero.mp hN)]
  exact activateScene_noThrow _ _ hnt (Nat.mod_lt _ hN)

theorem switchToPreviousScene_state (m : SceneManager)
    (hnt : ∀ s ∈ m.scenes, s.cleanupThrows = false)
    (hc : m.currentSceneIndex < m.scenes.length) :
    m.switchToPreviousScene.1 =
      { m with currentSceneIndex :=
          if m.currentSceneIndex = 0 then m.scenes.length - 1
          else m.currentSceneIndex - 1 } := by
  have hN : 0 < m.scenes.length := Nat.lt_of_le_of_lt (Nat.zero_le _) hc
  unfold SceneManager.switchToPreviousScene
  rw [if_neg (Nat.pos_iff_ne_zero.mp hN)]
  refine activateScene_noThrow _ _ hnt ?_
  split
  · omega
  · omega

theorem switchToNextScene_iterate (m : SceneManager)
    (hnt : ∀ s ∈ m.scenes, s.cleanupThrows = false)
    (hc : m.currentSceneIndex < m.scenes.length) (k : Nat) :
    (fun mm : SceneManager => mm.switchToNextScene.1)^[k] m =
      { m with currentSceneIndex := (m.currentSceneIndex + k) % m.scenes.length } := by
  induction k with
  | zero =>
    rw [Function.iterate_zero_apply, Nat.add_zero, Nat.mod_eq_of_lt hc]
  | succ k ih =>
    rw [Function.iterate_succ_apply', ih]
    have hN : 0 < m.scenes.length := Nat.lt_of_le_of_lt (Nat.zero_le _) hc
    rw [switchToNextScene_state
      { m with currentSceneIndex := (m.currentSceneIndex + k) % m.scenes.length }
      hnt (Nat.mod_lt _ hN)]
    simp only [Nat.mod_add_mod, Nat.add_assoc]

/-- Claim C3.  For a manager with N >= 1 non-throwing registered scenes
and current index c < N: `switchToNextScene()` sets the current index to
`(c + 1) mod N`; `switchToPreviousScene()` sets it to `(c - 1 + N) mod
N`; applying `switchToNextScene()` exactly N times returns the manager
to its starting state; `switchToPreviousScene()` is the exact inverse of
`switchToNextScene()`; and both are no-ops on an empty collection. -/
theorem c3_cyclic_navigation (m : SceneManager)
    (hc : m.currentSceneIndex < m.scenes.length)
    (hnt : ∀ s ∈ m.scenes, s.cleanupThrows = false) :
    m.switchToNextScene.1.currentSceneIndex = (m.currentSceneIndex + 1) % m.scenes.length
    ∧ (m.switchToPreviousScene.1.currentSceneIndex : ℤ) =
        ((m.currentSceneIndex : ℤ) - 1 + (m.scenes.length : ℤ)) % (m.scenes.length : ℤ)
    ∧ (fun mm : SceneManager => mm.switchToNextScene.1)^[m.scenes.length] m = m
    ∧ m.switchToNextScene.1.switchToPreviousScene.1 = m
    ∧ m.switchToPreviousScene.1.switchToNextScene.1 = m
    ∧ (∀ m0 : SceneManager, m0.scenes = [] →
        m0.switchToNextScene = (m0, [], false) ∧ m0.switchToPreviousScene = (m0, [], false)) := by
  have hN : 0 < m.scenes.length := Nat.lt_of_le_of_lt (Nat.zero_le _) hc
  refine ⟨?_, ?_, ?_, ?_, ?_, ?_⟩
  · rw [switchToNextScene_state m hnt hc]
  · rw [switchToPreviousScene_state m hnt hc]
    show ((if m.currentSceneIndex = 0 then m.scenes.length - 1
        else m.currentSceneIndex - 1 : Nat) : ℤ) = _
    rcases Nat.eq_zero_or_pos m.currentSceneIndex with h0 | h1
    · rw [if_pos h0, h0]
      have h1N : (1 : ℤ) ≤ (m.scenes.length : ℤ) := by exact_mod_cast hN
      rw [Int.emod_eq_of_lt (by omega) (by omega)]
      omega
    · rw [if_neg (Nat.pos_iff_ne_zero.mp h1)]
      have hcz : (m.currentSceneIndex : ℤ) < (m.scenes.length : ℤ) := by exact_mod_cast hc
      have h1c : (1 : ℤ) ≤ (m.currentSceneIndex : ℤ) := by exact_mod_cast h1
      have : ((m.currentSceneIndex : ℤ) - 1 + (m.scenes.length : ℤ))
          = ((m.currentSceneIndex : ℤ) - 1) + (m.scenes.length : ℤ) * 1 := by ring
      rw [this, Int.add_mul_emod_self_left,
        Int.emod_eq_of_lt (by omega) (by omega)]
      omega
  · rw [switchToNextScene_iterate m hnt hc, Nat.add_mod_right, Nat.mod_eq_of_lt hc]
  · rw [switchToNextScene_state m hnt hc]
    rw [switchToPreviousScene_state
      { m with currentSceneIndex := (m.currentSceneIndex + 1) % m.scenes.length }
      hnt (Nat.mod_lt _ hN)]
    have : (if (m.currentSceneIndex + 1) % m.scenes.length = 0 then m.scenes.length - 1
        else (m.currentSceneIndex + 1) % m.scenes.length - 1) = m.currentSceneIndex := by
      rcases Nat.lt_or_ge (m.currentSceneIndex + 1) m.scenes.length with h | h
      · rw [Nat.mod_eq_of_lt h, if_neg (Nat.succ_ne_zero _)]
        omega
      · have hEq : m.currentSceneIndex + 1 = m.scenes.length := by omega
        rw [hEq, Nat.mod_self, if_pos rfl]
        omega
    rw [this]
  · rw [switchToPreviousScene_state m hnt hc]
    have hp : (if m.currentSceneIndex = 0 then m.scenes.length - 1
        else m.currentSceneIndex - 1) < m.scenes.length := by
      split <;> omega
    rw [switchToNextScene_state
      { m with currentSceneIndex :=
          if m.currentSceneIndex = 0 then m.scenes.length - 1 else m.currentSceneIndex - 1 }
      hnt hp]
    have : ((if m.currentSceneIndex = 0 then m.scenes.length - 1
        else m.currentSceneIndex - 1) + 1) % m.scenes.length = m.currentSceneIndex := by
      rcases Nat.eq_zero_or_pos m.currentSceneIndex with h0 | h1
      · rw [if_pos h0, Nat.sub_add_cancel hN, Nat.mod_self, h0]
      · rw [if_neg (Nat.pos_iff_ne_zero.mp h1), Nat.sub_add_cancel h1,
          Nat.mod_eq_of_lt hc]
    rw [this]
  · intro m0 h0
    constructor <;>
      simp [SceneManager.switchToNextScene, SceneManager.switchToPreviousScene, h0]

/-- Claim C3, witness: cyclic navigation evaluated on a concrete
three-scene manager with current index 1. -/
theorem c3_witness :
    ((1 : Nat) < (⟨[⟨false, false⟩, ⟨false, false⟩, ⟨false, false⟩], 1⟩
        : SceneManager).scenes.length
      ∧ ∀ s ∈ (⟨[⟨false, false⟩, ⟨false, false⟩, ⟨false, false⟩], 1⟩
        : SceneManager).scenes, s.cleanupThrows = false)
    ∧ (⟨[⟨false, false⟩, ⟨false, false⟩, ⟨false, false⟩], 1⟩
        : SceneManager).switchToNextScene.1.currentSceneIndex = (1 + 1) % 3 :=
  ⟨⟨by decide, by decide⟩,
    (c3_cyclic_navigation ⟨[⟨false, false⟩, ⟨false, false⟩, ⟨false, false⟩], 1⟩
      (by decide) (by decide)).1⟩

theorem activateScene_inv (m : SceneManager) (i : Nat)
    (ih : m.currentSceneIndex < m.scenes.length ∨
      (m.scenes.length = 0 ∧ m.currentSceneIndex = 0)) :
    (m.activateScene i).1.currentSceneIndex < (m.activateScene i).1.scenes.length ∨
      ((m.activateScene i).1.scenes.length = 0 ∧ (m.activateScene i).1.currentSceneIndex = 0) := by
  rcases activateScene_state m i with hA | ⟨hA, hlt⟩ <;> rw [hA]
  · exact ih
  · exact Or.inl hlt

theorem manager_index_invariant (m : SceneManager) (h : m.Reachable) :
    m.currentSceneIndex < m.scenes.length ∨
      (m.scenes.length = 0 ∧ m.currentSceneIndex = 0) := by
  induction h with
  | init => exact Or.inr ⟨rfl, rfl⟩
  | @step m0 m1 hr hs ih =>
    cases hs with
    | register s =>
      cases s with
      | none => exact ih
      | some sc =>
        have ih1 : ({ m0 with scenes := m0.scenes ++ [sc] }
              : SceneManager).currentSceneIndex <
              ({ m0 with scenes := m0.scenes ++ [sc] } : SceneManager).scenes.length ∨
            (({ m0 with scenes := m0.scenes ++ [sc] } : SceneManager).scenes.length = 0 ∧
              ({ m0 with scenes := m0.scenes ++ [sc] } : SceneManager).currentSceneIndex = 0) := by
          rcases ih with h | ⟨h0, hi⟩ <;>
            · left
              simp only [List.length_append, List.length_cons, List.length_nil]
              omega
        have hreg : (m0.registerScene (some sc)).1 =
            (if (m0.scenes ++ [sc]).length = 1
              then ({ m0 with scenes := m0.scenes ++ [sc] } : SceneManager).activateScene 0
              else ({ m0 with scenes := m0.scenes ++ [sc] }, [], false)).1 := rfl
        rw [hreg]
        split
        · exact activateScene_inv _ 0 ih1
        · exact ih1
    | switchTo i =>
      unfold SceneManager.switchToScene
      split
      · exact ih
      · exact activateScene_inv _ _ ih
    | next =>
      unfold SceneManager.switchToNextScene
      split
      · exact ih
      · exact activateScene_inv _ _ ih
    | prev =>
      unfold SceneManager.switchToPreviousScene
      split
      · exact ih
      · exact activateScene_inv _ _ ih

/-- Claim C10.  For every reachable manager with zero registered scenes:
`getCurrentSceneIndex()` returns 0 while `getSceneCount()` returns 0,
`getCurrentScene()` returns null, and `update()`/`draw()` invoke no
scene method; the invariant `getCurrentSceneIndex() < getSceneCount()`
fails on such an empty manager, but holds for every reachable manager
with at least one registered scene. -/
theorem c10_empty_manager (m : SceneManager) (hm : m.Reachable) :
    (m.getSceneCount = 0 →
      m.getCurrentSceneIndex = 0 ∧ m.getCurrentScene = none
        ∧ m.update = [] ∧ m.draw = []
        ∧ ¬ m.getCurrentSceneIndex < m.getSceneCount)
    ∧ (1 ≤ m.getSceneCount → m.getCurrentSceneIndex < m.getSceneCount) := by
  have hinv := manager_index_invariant m hm
  constructor
  · intro h0
    have hlen : m.scenes.length = 0 := h0
    have hidx : m.currentSceneIndex = 0 := by
      rcases hinv with h | ⟨_, h⟩
      · omega
      · exact h
    have hcs : m.getCurrentScene = none := by
      unfold SceneManager.getCurrentScene
      rw [if_pos (by omega)]
    refine ⟨hidx, hcs, ?_, ?_, ?_⟩
    · unfold SceneManager.update
      rw [hcs]
    · unfold SceneManager.draw
      rw [hcs]
    · unfold SceneManager.getCurrentSceneIndex SceneManager.getSceneCount
      omega
  · intro h1
    rcases hinv with h | ⟨h0, _⟩
    · exact h
    · unfold SceneManager.getSceneCount at h1
      omega

/-- Claim C10, witness: evaluated on the fresh empty manager and on the
manager obtained by registering one scene into it. -/
theorem c10_witness :
    (SceneManager.initial.getSceneCount = 0 ∧ SceneManager.initial.update = [])
    ∧ (1 ≤ ((SceneManager.initial.registerScene (some ⟨false, false⟩)).1).getSceneCount
      ∧ ((SceneManager.initial.registerScene (some ⟨false, false⟩)).1).getCurrentSceneIndex
        < ((SceneManager.initial.registerScene (some ⟨false, false⟩)).1).getSceneCount) :=
  ⟨⟨rfl,
    ((c10_empty_manager SceneManager.initial SceneManager.Reachable.init).1 rfl).2.2.1⟩,
    by decide,
    (c10_empty_manager (SceneManager.initial.registerScene (some ⟨false, false⟩)).1
      (SceneManager.Reachable.step SceneManager.Reachable.init
        (SceneManager.Step.register SceneManager.initial (some ⟨false, false⟩)))).2
      (by decide)⟩

/-- Claim C4.  `PhysicsSystem::update` with a non-null world maps the
sync over the registry; for every entity holding both a Transform and a
PhysicsBody with a non-null rigid body, the engine's world transform is
read — the motion-state snapshot when a motion state exists, the direct
body query otherwise — and its position and rotation are copied into
the Transform, the quaternion translated from Bullet's (w, x, y, z)
convention into raylib's (x, y, z, w). -/
theorem c4_physics_sync (w : DynamicsWorld) (dt : ℝ) (registry : List Entity)
    (e : Entity) (t : Transform) (pb : PhysicsBody) (rb : RigidBody)
    (ht : e.transform = some t) (hpb : e.physicsBody = some pb)
    (hrb : pb.rigidBody = some rb) :
    PhysicsSystem.update (some w) dt registry = registry.map syncEntity
    ∧ (syncEntity e).transform = some { t with
        position := (readWorldTransform rb).origin,
        rot := btQuatToRaylib (readWorldTransform rb).rot }
    ∧ (∀ ms : MotionState, rb.motionState = some ms →
        readWorldTransform rb = ms.worldTransform)
    ∧ (rb.motionState = none → readWorldTransform rb = rb.worldTransform)
    ∧ (∀ qw qx qy qz : ℝ, btQuatToRaylib ⟨qw, qx, qy, qz⟩ = ⟨qx, qy, qz, qw⟩) := by
  refine ⟨rfl, ?_, ?_, ?_, fun qw qx qy qz => rfl⟩
  · simp [syncEntity, ht, hpb, hrb]
  · intro ms hms
    simp [readWorldTransform, hms]
  · intro hms
    simp [readWorldTransform, hms]

/-- Claim C4, witness: the sync evaluated on a concrete entity whose
rigid body carries a motion state at (1, 2, 3) with Bullet rotation
(w, x, y, z) = (4, 5, 6, 7): the Transform receives position (1, 2, 3)
and raylib rotation (x, y, z, w) = (5, 6, 7, 4). -/
theorem c4_witness :
    (syncEntity entityC4).transform = some { transformC4 with
        position := (readWorldTransform rigidBodyC4).origin,
        rot := btQuatToRaylib (readWorldTransform rigidBodyC4).rot }
    ∧ (syncEntity entityC4).transform =
        some ⟨⟨1, 2, 3⟩, ⟨5, 6, 7, 4⟩, ⟨1, 1, 1⟩⟩ := by
  have h := (c4_physics_sync ⟨⟨0, 0, 0⟩⟩ 0 [] entityC4 transformC4 physicsBodyC4
    rigidBodyC4 rfl rfl rfl).2.1
  exact ⟨h, by rw [h]; rfl⟩

theorem quatIdentityAxisAngle : quatToAxisAngle ⟨0, 0, 0, 1⟩ = (⟨0, 1, 0⟩, 0) := by
  unfold quatToAxisAngle
  rw [if_neg]
  simp only
  rw [show ((0 : ℝ) * 0 + 0 * 0 + 0 * 0) = 0 by ring, Real.sqrt_zero]
  norm_num

theorem quatY90AxisAngle :
    quatToAxisAngle ⟨0, Real.sin (Real.pi / 4), 0, Real.cos (Real.pi / 4)⟩ =
      (⟨0, 1, 0⟩, Real.pi / 2) := by
  have hsin : Real.sin (Real.pi / 4) = Real.sqrt 2 / 2 := Real.sin_pi_div_four
  have hcos : Real.cos (Real.pi / 4) = Real.sqrt 2 / 2 := Real.cos_pi_div_four
  have hs2 : (1 : ℝ) ≤ Real.sqrt 2 := by
    rw [show (1 : ℝ) = Real.sqrt 1 from Real.sqrt_one.symm]
    exact Real.sqrt_le_sqrt (by norm_num)
  have hspos : (0 : ℝ) < Real.sqrt 2 / 2 := by linarith
  have hmag : Real.sqrt (0 * 0 + Real.sin (Real.pi / 4) * Real.sin (Real.pi / 4) + 0 * 0)
      = Real.sqrt 2 / 2 := by
    rw [hsin, show ((0 : ℝ) * 0 + Real.sqrt 2 / 2 * (Real.sqrt 2 / 2) + 0 * 0)
      = Real.sqrt 2 / 2 * (Real.sqrt 2 / 2) by ring]
    exact Real.sqrt_mul_self (le_of_lt hspos)
  unfold quatToAxisAngle
  simp only
  rw [if_pos (by rw [hmag]; linarith)]
  have haxis : vector3Normalize ⟨0, Real.sin (Real.pi / 4), 0⟩ = ⟨0, 1, 0⟩ := by
    unfold vector3Normalize
    simp only
    rw [if_neg (by rw [hmag]; linarith)]
    rw [hmag]
    have hne : Real.sqrt 2 / 2 ≠ 0 := ne_of_gt hspos
    rw [hsin]
    have h1 : Real.sqrt 2 / 2 * (1 / (Real.sqrt 2 / 2)) = 1 := by
      field_simp
    have h0 : (0 : ℝ) * (1 / (Real.sqrt 2 / 2)) = 0 := by ring
    rw [h0, h1]
  have hangle : stdClamp (Real.cos (Real.pi / 4)) (-1) 1 = Real.cos (Real.pi / 4) := by
    unfold stdClamp
    rw [if_neg (by rw [hcos]; linarith), if_neg (by
      have := Real.cos_le_one (Real.pi / 4)
      linarith)]
  rw [haxis, hangle]
  have harccos : Real.arccos (Real.cos (Real.pi / 4)) = Real.pi / 4 := by
    have hpi := Real.pi_pos
    exact Real.arccos_cos (by linarith) (by linarith)
  rw [harccos]
  rw [show 2 * (Real.pi / 4) = Real.pi / 2 by ring]

/-- Claim C5.  The render system's quaternion-to-axis-angle conversion:
a quaternion whose vector-part magnitude does not exceed the 0.0001
threshold is treated as identity (default axis (0, 1, 0), angle 0);
otherwise the axis is the normalized vector part and the angle
`2 * acos(clamp(w, -1, 1))`; in particular the 90-degrees-about-Y
quaternion (x = 0, y = sin 45, z = 0, w = cos 45) yields axis (0, 1, 0)
and an angle within 0.001 of pi/2 (here exactly pi/2). -/
theorem c5_quat_axis_angle :
    (∀ q : Quaternion,
        Real.sqrt (q.x * q.x + q.y * q.y + q.z * q.z) ≤ 1 / 10000 →
        quatToAxisAngle q = (⟨0, 1, 0⟩, 0))
    ∧ (∀ q : Quaternion,
        Real.sqrt (q.x * q.x + q.y * q.y + q.z * q.z) > 1 / 10000 →
        quatToAxisAngle q =
          (vector3Normalize ⟨q.x, q.y, q.z⟩, 2 * Real.arccos (stdClamp q.w (-1) 1)))
    ∧ (quatToAxisAngle ⟨0, Real.sin (Real.pi / 4), 0, Real.cos (Real.pi / 4)⟩).1
        = ⟨0, 1, 0⟩
    ∧ |(quatToAxisAngle ⟨0, Real.sin (Real.pi / 4), 0, Real.cos (Real.pi / 4)⟩).2
        - Real.pi / 2| ≤ 1 / 1000 := by
  refine ⟨?_, ?_, ?_, ?_⟩
  · intro q hq
    unfold quatToAxisAngle
    rw [if_neg (not_lt.mpr hq)]
  · intro q hq
    unfold quatToAxisAngle
    rw [if_pos hq]
  · rw [quatY90AxisAngle]
  · rw [quatY90AxisAngle]
    norm_num

/-- Claim C5, witness: the identity-adjacent clause evaluated at the
exact identity quaternion (0, 0, 0, 1). -/
theorem c5_witness :
    Real.sqrt ((0 : ℝ) * 0 + 0 * 0 + 0 * 0) ≤ 1 / 10000
    ∧ quatToAxisAngle ⟨0, 0, 0, 1⟩ = (⟨0, 1, 0⟩, 0) := by
  have h : Real.sqrt ((0 : ℝ) * 0 + 0 * 0 + 0 * 0) ≤ 1 / 10000 := by
    rw [show ((0 : ℝ) * 0 + 0 * 0 + 0 * 0) = 0 by ring, Real.sqrt_zero]
    norm_num
  exact ⟨h, c5_quat_axis_angle.1 ⟨0, 0, 0, 1⟩ h⟩

/-- Claim C8.  Every entity of the render view (`Transform` and
`Renderable` present, `hasModel` true) whose scale has a non-positive
component still produces exactly one draw call — the `DrawModel`
unit-scale fallback — and is never skipped. -/
theorem c8_scale_fallback (e : Entity) (t : Transform) (r : Renderable)
    (ht : e.transform = some t) (hr : e.renderable = some r)
    (hm : r.hasModel = true)
    (hscale : t.scale.x ≤ 0 ∨ t.scale.y ≤ 0 ∨ t.scale.z ≤ 0) :
    generalViewDraw e = [DrawEvent.drawModel r.model.id t.position 1 r.color]
    ∧ (generalViewDraw e).length = 1 := by
  have hdraw : generalViewDraw e = renderEntityDraw t r := by
    simp [generalViewDraw, ht, hr]
  have hfall : renderEntityDraw t r = [DrawEvent.drawModel r.model.id t.position 1 r.color] := by
    unfold renderEntityDraw
    rw [if_neg (by simp [hm]), if_neg ?_]
    intro hc
    rcases hscale with h | h | h
    · exact absurd hc.1 (not_lt.mpr h)
    · exact absurd hc.2.1 (not_lt.mpr h)
    · exact absurd hc.2.2 (not_lt.mpr h)
  rw [hdraw, hfall]
  exact ⟨rfl, rfl⟩

/-- Claim C8, witness: the fallback evaluated on a concrete entity with
a valid model and scale (0, 1, 1). -/
theorem c8_witness :
    generalViewDraw badScaleEntity =
      [DrawEvent.drawModel badScaleRenderable.model.id badScaleTransform.position 1
        badScaleRenderable.color] :=
  (c8_scale_fallback badScaleEntity badScaleTransform badScaleRenderable rfl rfl rfl
    (Or.inl (le_refl 0))).1

/-- Claim C7 (amended).  `BulletPhysicsScene::draw` runs its passes in
fixed order — the ground pass (`RenderSystem::drawGround`) first, then
the general pass (`RenderSystem::draw`), then the character/debug,
no-characters-fallback and wireframe passes.  The general pass iterates
the whole `<Transform, Renderable>` view without excluding `Ground`, so
a ground-tagged renderable entity with a valid model is drawn by the
ground pass and drawn again by the general pass. -/
theorem c7_draw_passes (s : BulletPhysicsScene) (hinit : s.isInitialized = true)
    (e : Entity) (t : Transform) (r : Renderable)
    (hg : e.ground = true) (ht : e.transform = some t) (hr : e.renderable = some r)
    (hm : r.hasModel = true) :
    s.draw = RenderSystem.drawGround s.registry ++ RenderSystem.draw s.registry ++
        s.registry.flatMap characterViewDraw ++ noCharacterFallback s.registry ++
        s.registry.flatMap wireframeViewDraw
    ∧ groundViewDraw e =
        [DrawEvent.drawModelEx r.model.id t.position ⟨0, 1, 0⟩ 0 t.scale r.color]
    ∧ generalViewDraw e ≠ [] := by
  refine ⟨?_, ?_, ?_⟩
  · unfold BulletPhysicsScene.draw
    rw [if_neg (by simp [hinit])]
  · simp [groundViewDraw, ht, hr, hg, groundEntityDraw, hm]
  · have hdraw : generalViewDraw e = renderEntityDraw t r := by
      simp [generalViewDraw, ht, hr]
    rw [hdraw]
    unfold renderEntityDraw
    rw [if_neg (by simp [hm])]
    split <;> simp

/-- Claim C7, counterexample to the claim as stated.  On an initialized
scene whose registry holds exactly one Ground-tagged renderable entity
(identity rotation, unit scale), the frame's draw issues the same
`DrawModelEx` for that entity twice — once from the ground pass and
once again from the general pass (followed by the no-characters debug
cube) — so the general pass does not draw "only the remaining"
entities. -/
theorem c7_counterexample :
    BulletPhysicsScene.draw groundOnlyScene =
      [DrawEvent.drawModelEx 0 ⟨0, 0, 0⟩ ⟨0, 1, 0⟩ 0 ⟨1, 1, 1⟩ Color.darkgreen,
       DrawEvent.drawModelEx 0 ⟨0, 0, 0⟩ ⟨0, 1, 0⟩ 0 ⟨1, 1, 1⟩ Color.darkgreen,
       DrawEvent.drawCube ⟨0, 0, 0⟩ 1 1 1 Color.magenta,
       DrawEvent.drawCubeWires ⟨0, 0, 0⟩ 1 1 1 Color.red]
    ∧ RenderSystem.draw [groundOnlyEntity] ≠ [] := by
  constructor
  · unfold BulletPhysicsScene.draw
    rw [if_neg (by simp [groundOnlyScene])]
    simp [groundOnlyScene, groundOnlyEntity, RenderSystem.drawGround, RenderSystem.draw,
      groundViewDraw, generalViewDraw, groundEntityDraw, renderEntityDraw,
      characterViewDraw, noCharacterFallback, isCharacterViewEntity, wireframeViewDraw,
      quatIdentityAxisAngle]
  · simp [RenderSystem.draw, groundOnlyEntity, generalViewDraw, renderEntityDraw,
      quatIdentityAxisAngle]

/-- Claim C7, witness: the amended pass characterization evaluated on
the concrete one-ground-entity scene. -/
theorem c7_witness :
    groundViewDraw groundOnlyEntity =
      [DrawEvent.drawModelEx 0 ⟨0, 0, 0⟩ ⟨0, 1, 0⟩ 0 ⟨1, 1, 1⟩ Color.darkgreen]
    ∧ generalViewDraw groundOnlyEntity ≠ [] := by
  have h := c7_draw_passes groundOnlyScene rfl groundOnlyEntity _ _ rfl rfl rfl rfl
  exact ⟨h.2.1, h.2.2⟩

theorem setTransformScale_physicsBody (e : Entity) (sc : Vector3) :
    (setTransformScale e sc).physicsBody = e.physicsBody := by
  unfold setTransformScale
  split <;> rfl

theorem setEntityName_physicsBody (e : Entity) (n : String) :
    (setEntityName e n).physicsBody = e.physicsBody := rfl

theorem createPhysicsEntity_physicsBody (dynamicsWorld : Option DynamicsWorld)
    (position : Vector3) (collisionShape : CollisionShape) (mass : ℝ)
    (hasModel : Bool) (model : Model) (color : Color) (isGround : Bool) (pb : PhysicsBody)
    (h : (createPhysicsEntity dynamicsWorld position collisionShape mass
        hasModel model color isGround).1.physicsBody = some pb) :
    pb.mass = mass ∧ pb.isStatic = (if mass = 0 then true else false) := by
  unfold createPhysicsEntity at h
  simp only [Option.some_inj] at h
  rw [← h]
  exact ⟨rfl, rfl⟩

theorem sqrtTenEqThree : Nat.sqrt 10 = 3 :=
  (Nat.eq_sqrt.mpr (by norm_num)).symm

theorem initialize_registry_fresh (env : RaylibEnv) :
    (freshBulletPhysicsScene.initializeScene env).1.registry =
      [setTransformScale (groundCreation env (some ⟨⟨0, -(98 / 10), 0⟩⟩)).1 ⟨40, 1, 40⟩] ++
      (if env.characterFileExists = true ∧ env.characterModel.valid = true then
        [setTransformScale
          (setEntityName (characterCreation env (some ⟨⟨0, -(98 / 10), 0⟩⟩)).1 "character-a")
          ⟨1, 1, 1⟩]
      else []) := by
  cases hf : env.characterFileExists <;> cases hv : env.characterModel.valid <;>
    simp [BulletPhysicsScene.initializeScene, BulletPhysicsScene.setupPhysicsWorld,
      BulletPhysicsScene.createGroundPlane, BulletPhysicsScene.createCharacter,
      freshBulletPhysicsScene, hf, hv]

theorem initialize_events_fresh (env : RaylibEnv) :
    (freshBulletPhysicsScene.initializeScene env).2 =
      [WorldEvent.addRigidBody] ++
      (if env.characterFileExists = true ∧ env.characterModel.valid = true then
        [WorldEvent.addRigidBody]
      else []) := by
  cases hf : env.characterFileExists <;> cases hv : env.characterModel.valid <;>
    simp [BulletPhysicsScene.initializeScene, BulletPhysicsScene.setupPhysicsWorld,
      BulletPhysicsScene.createGroundPlane, BulletPhysicsScene.createCharacter,
      freshBulletPhysicsScene, groundCreation, characterCreation, createPhysicsEntity,
      hf, hv]

/-- Claim C6, evidence of the divergence.  Initializing the physics
scene from the uninitialized state creates the world and populates the
registry with the static ground-plane entity and (only when the
character file exists and the model loads validly) the static character
capsule — and nothing else: every physics body it creates has mass 0
and is static, so no grid of falling dynamic boxes exists; each created
body is attached to the world (one `addRigidBody` per entity).  The
never-invoked `createFallingBoxes()` would have created 9 dynamic
entities of mass 1. -/
theorem c6_initialize_contents (env : RaylibEnv) :
    ((freshBulletPhysicsScene.initializeScene env).1.registry.length =
        if env.characterFileExists = true ∧ env.characterModel.valid = true then 2 else 1)
    ∧ (∀ e ∈ (freshBulletPhysicsScene.initializeScene env).1.registry,
        ∀ pb : PhysicsBody, e.physicsBody = some pb → pb.mass = 0 ∧ pb.isStatic = true)
    ∧ (freshBulletPhysicsScene.initializeScene env).2 =
        List.replicate (freshBulletPhysicsScene.initializeScene env).1.registry.length
          WorldEvent.addRigidBody
    ∧ (freshBulletPhysicsScene.createFallingBoxes env).1.registry.length = 9
    ∧ (∀ e ∈ (freshBulletPhysicsScene.createFallingBoxes env).1.registry,
        ∀ pb : PhysicsBody, e.physicsBody = some pb → pb.mass = 1) := by
  refine ⟨?_, ?_, ?_, ?_, ?_⟩
  · rw [initialize_registry_fresh]
    by_cases h : env.characterFileExists = true ∧ env.characterModel.valid = true <;>
      simp [h]
  · rw [initialize_registry_fresh]
    intro e he pb hpb
    have hmass : ∀ w pos shape hasM mdl col isG,
        (createPhysicsEntity w pos shape 0 hasM mdl col isG).1.physicsBody = some pb →
        pb.mass = 0 ∧ pb.isStatic = true := by
      intro w pos shape hasM mdl col isG h
      have := createPhysicsEntity_physicsBody w pos shape 0 hasM mdl col isG pb h
      exact ⟨this.1, by rw [this.2, if_pos rfl]⟩
    rcases List.mem_append.mp he with hg | hc
    · rw [List.mem_singleton] at hg
      subst hg
      rw [setTransformScale_physicsBody] at hpb
      exact hmass _ _ _ _ _ _ _ hpb
    · by_cases h : env.characterFileExists = true ∧ env.characterModel.valid = true
      · rw [if_pos h, List.mem_singleton] at hc
        subst hc
        rw [setTransformScale_physicsBody, setEntityName_physicsBody] at hpb
        exact hmass _ _ _ _ _ _ _ hpb
      · rw [if_neg h] at hc
        exact absurd hc (List.not_mem_nil e)
  · rw [initialize_events_fresh, initialize_registry_fresh]
    by_cases h : env.characterFileExists = true ∧ env.characterModel.valid = true <;>
      simp [h, List.replicate]
  · unfold BulletPhysicsScene.createFallingBoxes
    rw [sqrtTenEqThree]
    simp [freshBulletPhysicsScene, List.range_succ]
  · intro e he pb hpb
    unfold BulletPhysicsScene.createFallingBoxes at he
    simp only [freshBulletPhysicsScene, List.nil_append, List.mem_flatMap,
      List.mem_filterMap, List.mem_range] at he
    obtain ⟨i, hi, j, hj, hij⟩ := he
    split at hij
    · have he2 : (fallingBoxCreation env freshBulletPhysicsScene.dynamicsWorld i j
          (i * Nat.sqrt 10 + j)).1 = e := Option.some_inj.mp hij
      rw [← he2] at hpb
      unfold fallingBoxCreation at hpb
      exact (createPhysicsEntity_physicsBody _ _ _ 1 _ _ _ _ pb hpb).1
    · exact absurd hij (by simp)

/-- Claim C9.  For each scene variant and every starting state, a second
`cleanup()` right after a first one returns the same state and performs
no further release (same observable state, no double free); and
`cleanup()` on an uninitialized scene is a no-op that leaves the scene
unchanged and releases nothing.  (No operation in any of the embedded
cleanups can fail: every release is guarded by its own check.) -/
theorem c9_cleanup_idempotent :
    (∀ s : GeometricScene,
        GeometricScene.cleanup (GeometricScene.cleanup s).1 = ((GeometricScene.cleanup s).1, []))
    ∧ (∀ s : GeometricScene, s.isInitialized = false → GeometricScene.cleanup s = (s, []))
    ∧ (∀ s : TreeScene,
        TreeScene.cleanup (TreeScene.cleanup s).1 = ((TreeScene.cleanup s).1, []))
    ∧ (∀ s : TreeScene, s.isInitialized = false → TreeScene.cleanup s = (s, []))
    ∧ (∀ s : BulletPhysicsScene,
        BulletPhysicsScene.cleanup (BulletPhysicsScene.cleanup s).1 =
          ((BulletPhysicsScene.cleanup s).1, []))
    ∧ (∀ s : BulletPhysicsScene, s.isInitialized = false →
        BulletPhysicsScene.cleanup s = (s, [])) := by
  refine ⟨?_, ?_, ?_, ?_, ?_, ?_⟩
  · intro s
    cases hb : s.isInitialized <;>
      simp [GeometricScene.cleanup, hb]
  · intro s h
    simp [GeometricScene.cleanup, h]
  · intro s
    cases hb : s.isInitialized <;>
      simp [TreeScene.cleanup, hb]
  · intro s h
    simp [TreeScene.cleanup, h]
  · intro s
    cases hb : s.isInitialized <;>
      simp [BulletPhysicsScene.cleanup, BulletPhysicsScene.cleanupPhysicsWorld, hb]
  · intro s h
    simp [BulletPhysicsScene.cleanup, h]

/-- Claim C9, witness: the uninitialized no-op clauses evaluated on
concrete uninitialized scenes of each variant. -/
theorem c9_witness :
    GeometricScene.cleanup ⟨[], ⟨0, false, ⟨0, 0, 0⟩, ⟨0, 0, 0⟩⟩, false, 0, false⟩ =
      (⟨[], ⟨0, false, ⟨0, 0, 0⟩, ⟨0, 0, 0⟩⟩, false, 0, false⟩, [])
    ∧ TreeScene.cleanup ⟨[], "assets/retrourban/tree-small.glb", false⟩ =
      (⟨[], "assets/retrourban/tree-small.glb", false⟩, [])
    ∧ BulletPhysicsScene.cleanup freshBulletPhysicsScene = (freshBulletPhysicsScene, []) :=
  ⟨c9_cleanup_idempotent.2.1 _ rfl,
    c9_cleanup_idempotent.2.2.2.1 _ rfl,
    c9_cleanup_idempotent.2.2.2.2.2 _ rfl⟩
